import Mathlib

/-!
Verification of the exFAT metadata core of sleuthkit against its
specification.  The on-disk structure layouts and the directory-entry
type codes are embedded from `src/tsk/fs/tsk_exfatfs.h`; the operation
bodies (`exfatfs_open`, `exfatfs_is_clust_alloc`, `exfatfs_isdentry`,
the file-entry-set reconstruction) are declared in that header but their
implementation files are not part of the source tree, so those
operations are modelled from the specification, as marked in their doc
comments.
-/

set_option maxRecDepth 100000

namespace ExFat

/-- A struct field: its name and its width in bytes. -/
abbrev FieldSpec := String × Nat

/-- Total size in bytes of a struct layout. -/
def layoutSize (l : List FieldSpec) : Nat := (l.map Prod.snd).sum

/-- Byte offset of the first field with the given name in a layout. -/
def offsetOf : List FieldSpec → String → Nat
  | [], _ => 0
  | (n, w) :: rest, name => if n = name then 0 else w + offsetOf rest name

/-- Width in bytes of the first field with the given name in a layout. -/
def widthOf : List FieldSpec → String → Nat
  | [], _ => 0
  | (n, w) :: rest, name => if n = name then w else widthOf rest name

/-- Field layout of `EXFATFS_BOOT_SECTOR` (tsk_exfatfs.h lines 44-66). -/
def EXFATFS_BOOT_SECTOR_layout : List FieldSpec :=
  [("jump_to_boot_code", 3),
   ("fs_name", 8),
   ("must_be_zeros", 53),
   ("partition_offset", 8),
   ("vol_len_in_sectors", 8),
   ("fat_offset", 4),
   ("fat_len_in_sectors", 4),
   ("cluster_heap_offset", 4),
   ("cluster_cnt", 4),
   ("root_dir_cluster", 4),
   ("vol_serial_no", 4),
   ("fs_revision", 2),
   ("vol_flags", 2),
   ("bytes_per_sector", 1),
   ("sectors_per_cluster", 1),
   ("num_fats", 1),
   ("drive_select", 1),
   ("percent_of_cluster_heap_in_use", 1),
   ("reserved", 7),
   ("boot_code", 390),
   ("signature", 2)]

/-- Field layout of `EXFATFS_VOL_LABEL_DIR_ENTRY` (lines 90-95). -/
def EXFATFS_VOL_LABEL_DIR_ENTRY_layout : List FieldSpec :=
  [("entry_type", 1), ("utf16_char_count", 1), ("volume_label", 22),
   ("reserved", 8)]

/-- Field layout of `EXFATFS_VOL_GUID_DIR_ENTRY` (lines 102-109). -/
def EXFATFS_VOL_GUID_DIR_ENTRY_layout : List FieldSpec :=
  [("entry_type", 1), ("secondary_entries_count", 1), ("check_sum", 2),
   ("flags", 2), ("volume_guid", 16), ("reserved", 10)]

/-- Field layout of `EXFATFS_ALLOC_BITMAP_DIR_ENTRY` (lines 120-126). -/
def EXFATFS_ALLOC_BITMAP_DIR_ENTRY_layout : List FieldSpec :=
  [("entry_type", 1), ("flags", 1), ("reserved", 18),
   ("first_cluster_addr", 4), ("length_in_bytes", 8)]

/-- Field layout of `EXFATFS_UPCASE_TABLE_DIR_ENTRY` (lines 135-142). -/
def EXFATFS_UPCASE_TABLE_DIR_ENTRY_layout : List FieldSpec :=
  [("entry_type", 1), ("reserved1", 3), ("table_check_sum", 4),
   ("reserved2", 12), ("table_first_cluster_addr", 4), ("table_length", 8)]

/-- Field layout of `EXFATFS_TEXFAT_DIR_ENTRY` (lines 150-153). -/
def EXFATFS_TEXFAT_DIR_ENTRY_layout : List FieldSpec :=
  [("entry_type", 1), ("reserved", 31)]

/-- Field layout of `EXFATFS_ACCESS_CTRL_TABLE_DIR_ENTRY` (lines 161-164). -/
def EXFATFS_ACCESS_CTRL_TABLE_DIR_ENTRY_layout : List FieldSpec :=
  [("entry_type", 1), ("reserved", 31)]

/-- Field layout of `EXFATFS_FILE_DIR_ENTRY` (lines 174-189). -/
def EXFATFS_FILE_DIR_ENTRY_layout : List FieldSpec :=
  [("entry_type", 1), ("secondary_entries_count", 1), ("check_sum", 2),
   ("file_attrs", 2), ("reserved1", 2), ("ctime", 4), ("mtime", 4),
   ("atime", 4), ("ctime_10_ms_increments", 1), ("ltime_10_ms_increments", 1),
   ("ctime_time_zone_offset", 1), ("mtime_time_zone_offset", 1),
   ("atime_time_zone_offset", 1), ("reserved2", 7)]

/-- Field layout of `EXFATFS_FILE_STREAM_DIR_ENTRY` (lines 200-211). -/
def EXFATFS_FILE_STREAM_DIR_ENTRY_layout : List FieldSpec :=
  [("entry_type", 1), ("flags", 1), ("reserved1", 1), ("file_name_length", 1),
   ("file_name_hash", 2), ("reserved2", 2), ("valid_data_length", 8),
   ("reserved3", 4), ("first_cluster_addr", 4), ("data_length", 8)]

/-- Field layout of `EXFATFS_FILE_NAME_DIR_ENTRY` (lines 221-225). -/
def EXFATFS_FILE_NAME_DIR_ENTRY_layout : List FieldSpec :=
  [("entry_type", 1), ("flags", 1), ("file_name", 30)]

/-! Directory-entry type codes, from `EXFATFS_DIR_ENTRY_TYPE_ENUM`
(tsk_exfatfs.h lines 71-83). -/

def EXFATFS_DIR_ENTRY_TYPE_VOLUME_LABEL : Nat := 0x83
def EXFATFS_DIR_ENTRY_TYPE_VOLUME_LABEL_EMPTY : Nat := 0x03
def EXFATFS_DIR_ENTRY_TYPE_VOLUME_GUID : Nat := 0xA0
def EXFATFS_DIR_ENTRY_TYPE_ALLOC_BITMAP : Nat := 0x81
def EXFATFS_DIR_ENTRY_TYPE_UPCASE_TABLE : Nat := 0x82
def EXFATFS_DIR_ENTRY_TYPE_TEX_FAT : Nat := 0xA1
def EXFATFS_DIR_ENTRY_TYPE_ACL : Nat := 0xE2
def EXFATFS_DIR_ENTRY_TYPE_FILE : Nat := 0x85
def EXFATFS_DIR_ENTRY_TYPE_FILE_DELETED : Nat := 0x05
def EXFATFS_DIR_ENTRY_TYPE_FILE_STREAM : Nat := 0xC0
def EXFATFS_DIR_ENTRY_TYPE_FILE_NAME : Nat := 0xC1

/-- The closed set of entry-type tags of the data model. -/
inductive EntryType where
  | VolumeLabel
  | VolumeLabelEmpty
  | VolumeGUID
  | AllocBitmap
  | UpcaseTable
  | TexFAT
  | AccessControlTable
  | File
  | FileDeleted
  | FileStream
  | FileName
  | Unknown
  deriving DecidableEq, Repr

/-- The first bytes recognized as directory-entry type codes. -/
def knownTypeCodes : List Nat :=
  [EXFATFS_DIR_ENTRY_TYPE_VOLUME_LABEL,
   EXFATFS_DIR_ENTRY_TYPE_VOLUME_LABEL_EMPTY,
   EXFATFS_DIR_ENTRY_TYPE_VOLUME_GUID,
   EXFATFS_DIR_ENTRY_TYPE_ALLOC_BITMAP,
   EXFATFS_DIR_ENTRY_TYPE_UPCASE_TABLE,
   EXFATFS_DIR_ENTRY_TYPE_TEX_FAT,
   EXFATFS_DIR_ENTRY_TYPE_ACL,
   EXFATFS_DIR_ENTRY_TYPE_FILE,
   EXFATFS_DIR_ENTRY_TYPE_FILE_DELETED,
   EXFATFS_DIR_ENTRY_TYPE_FILE_STREAM,
   EXFATFS_DIR_ENTRY_TYPE_FILE_NAME]

/-- Modelled from the spec: the implementation of `exfatfs_isdentry` is not
under src/ (only its declaration at tsk_exfatfs.h lines 255-256 is).
Basic-mode classification maps the first byte of a 32-byte record to an
entry-type tag using the type codes of `EXFATFS_DIR_ENTRY_TYPE_ENUM`;
a byte outside the known set yields `Unknown` and never an error. -/
def classifyBasicByte (b : Nat) : EntryType :=
  if b = EXFATFS_DIR_ENTRY_TYPE_VOLUME_LABEL then .VolumeLabel
  else if b = EXFATFS_DIR_ENTRY_TYPE_VOLUME_LABEL_EMPTY then .VolumeLabelEmpty
  else if b = EXFATFS_DIR_ENTRY_TYPE_VOLUME_GUID then .VolumeGUID
  else if b = EXFATFS_DIR_ENTRY_TYPE_ALLOC_BITMAP then .AllocBitmap
  else if b = EXFATFS_DIR_ENTRY_TYPE_UPCASE_TABLE then .UpcaseTable
  else if b = EXFATFS_DIR_ENTRY_TYPE_TEX_FAT then .TexFAT
  else if b = EXFATFS_DIR_ENTRY_TYPE_ACL then .AccessControlTable
  else if b = EXFATFS_DIR_ENTRY_TYPE_FILE then .File
  else if b = EXFATFS_DIR_ENTRY_TYPE_FILE_DELETED then .FileDeleted
  else if b = EXFATFS_DIR_ENTRY_TYPE_FILE_STREAM then .FileStream
  else if b = EXFATFS_DIR_ENTRY_TYPE_FILE_NAME then .FileName
  else .Unknown

/-- A raw directory record is a 32-byte blob, held as a byte list;
Basic-mode classification of a record inspects its first byte. -/
def classifyBasic (rec : List Nat) : EntryType := classifyBasicByte (rec.headD 0)

/-- The in-use mark of a type code: bit 0x80, i.e. bit number 7. -/
def inUseBit (b : Nat) : Bool := b.testBit 7

/-- Error taxonomy of the core.  The first five kinds come from the
specification; the last three model precondition violations of `build`
that the specification leaves to the caller (the supplied sequence must
begin with a File record, a stream record must follow it, and the
declared secondary-entry count must be in the structural range). -/
inductive FsError where
  | InvalidBootSector
  | ClusterOutOfRange
  | TruncatedSet
  | SecondaryCountMismatch
  | NameLengthMismatch
  | NotPrimaryRecord
  | MissingStreamRecord
  | InvalidSecondaryCount
  deriving DecidableEq, Repr

/-- Little-endian read of `len` bytes starting at byte offset `off`. -/
def readLE (bytes : List Nat) (off len : Nat) : Nat :=
  (List.range len).foldr (fun i acc => acc * 256 + bytes.getD (off + i) 0) 0

/-! ## BootSectorParser -/

/-- Geometry record decoded from the boot sector, one field per decoded
boot-sector field (sector and cluster sizes are kept as their stored
power-of-two exponents). -/
structure Geometry where
  partitionOffset : Nat
  volLenInSectors : Nat
  fatOffset : Nat
  fatLenInSectors : Nat
  clusterHeapOffset : Nat
  clusterCnt : Nat
  rootDirCluster : Nat
  volSerialNo : Nat
  fsRevision : Nat
  volFlags : Nat
  bytesPerSectorExp : Nat
  sectorsPerClusterExp : Nat
  numFats : Nat
  driveSelect : Nat
  percentOfClusterHeapInUse : Nat
  deriving DecidableEq, Repr

/-- The fixed two-byte boot signature, stored little-endian 0x55 0xAA in
the `signature` field at the end of the boot sector. -/
def bootSignatureBytes : List Nat := [0x55, 0xAA]

/-- The fixed signature is present: the two `signature` bytes at offsets
510 and 511 hold their mandated values. -/
def signatureOk (s : List Nat) : Bool :=
  s.getD 510 0 = 0x55 && s.getD 511 0 = 0xAA

/-- The 53-byte `must_be_zeros` region (byte offsets 11-63) is all zero. -/
def mustBeZerosOk (s : List Nat) : Bool :=
  ((s.drop 11).take 53).all (· = 0)

/-- The stored sector-size exponent (`bytes_per_sector`, offset 108) is in
9..12, i.e. the sector size is 2^9..2^12 bytes. -/
def sectorSizeOk (s : List Nat) : Bool :=
  9 ≤ s.getD 108 0 && s.getD 108 0 ≤ 12

/-- The cluster size does not exceed the format's maximum: sector-size
exponent plus `sectors_per_cluster` exponent (offset 109) at most 25,
i.e. cluster size at most 2^25 bytes. -/
def clusterSizeOk (s : List Nat) : Bool :=
  s.getD 108 0 + s.getD 109 0 ≤ 25

/-- Decode every geometry field at its `EXFATFS_BOOT_SECTOR` offset,
little-endian. -/
def decodeGeometry (s : List Nat) : Geometry :=
  { partitionOffset := readLE s 64 8
    volLenInSectors := readLE s 72 8
    fatOffset := readLE s 80 4
    fatLenInSectors := readLE s 84 4
    clusterHeapOffset := readLE s 88 4
    clusterCnt := readLE s 92 4
    rootDirCluster := readLE s 96 4
    volSerialNo := readLE s 100 4
    fsRevision := readLE s 104 2
    volFlags := readLE s 106 2
    bytesPerSectorExp := s.getD 108 0
    sectorsPerClusterExp := s.getD 109 0
    numFats := s.getD 110 0
    driveSelect := s.getD 111 0
    percentOfClusterHeapInUse := s.getD 112 0 }

/-- Modelled from the spec: the implementation of `exfatfs_open` is not
under src/ (only its declaration at tsk_exfatfs.h lines 227-234 is).
`parse` validates the fixed signature, the mandated-zero region and the
power-of-two sector/cluster size ranges, failing with
`InvalidBootSector` on any violation, and otherwise decodes the
geometry fields at the `EXFATFS_BOOT_SECTOR` offsets. -/
def parse (s : List Nat) : Except FsError Geometry :=
  if signatureOk s && mustBeZerosOk s && sectorSizeOk s && clusterSizeOk s then
    .ok (decodeGeometry s)
  else
    .error .InvalidBootSector

/-! ## ClusterAllocationOracle -/

/-- Bit number `i` of an allocation bitmap held as a byte list:
bit `i % 8` of byte `i / 8`. -/
def bitmapBit (bytes : List Nat) (i : Nat) : Bool :=
  Nat.testBit (bytes.getD (i / 8) 0) (i % 8)

/-- The oracle's state: the cluster count from the geometry and the
cached byte range of the active allocation bitmap. -/
structure AllocOracle where
  clusterCount : Nat
  bitmapBytes : List Nat
  deriving DecidableEq, Repr

/-- Modelled from the spec: the implementation of
`exfatfs_is_clust_alloc` is not under src/ (only its declaration at
tsk_exfatfs.h lines 236-244 is).  A cluster index below the first valid
data cluster (2) or above `clusterCount + 1` is rejected with
`ClusterOutOfRange`; otherwise the answer is bit `clusterIndex - 2` of
the active allocation bitmap. -/
def isAllocated (o : AllocOracle) (clusterIndex : Nat) : Except FsError Bool :=
  if clusterIndex < 2 ∨ clusterIndex > o.clusterCount + 1 then
    .error .ClusterOutOfRange
  else
    .ok (bitmapBit o.bitmapBytes (clusterIndex - 2))

/-! ## FileEntrySetReconstructor -/

/-- One step of the 16-bit rotate-and-add checksum: rotate the running
sum right by one bit in 16 bits, then add the next byte, modulo 2^16. -/
def csStep (sum b : Nat) : Nat :=
  ((sum % 2) * 0x8000 + sum / 2 + b) % 0x10000

/-- Fold the rotate-and-add step over a byte list. -/
def checksumBytes (start : Nat) (bytes : List Nat) : Nat :=
  bytes.foldl csStep start

/-- The bytes of the primary File record that enter the checksum: all of
them except the two-byte `check_sum` field at offsets 2-3. -/
def primaryChecksumBytes (primary : List Nat) : List Nat :=
  primary.take 2 ++ primary.drop 4

/-- The entry-set checksum: a 16-bit rotate-and-add over every byte of
the set except the two-byte stored checksum field of the primary
record. -/
def entrySetChecksum (primary : List Nat) (secondaries : List (List Nat)) : Nat :=
  checksumBytes (checksumBytes 0 (primaryChecksumBytes primary)) secondaries.flatten

/-- The stored checksum: the `check_sum` field of the primary File
record, bytes 2-3, little-endian. -/
def storedChecksum (primary : List Nat) : Nat := readLE primary 2 2

/-- The declared secondary-entry count: byte 1 of the primary File
record (`secondary_entries_count`). -/
def declaredSecondaryCount (primary : List Nat) : Nat := primary.getD 1 0

/-- The declared name length: byte 3 of the stream record
(`file_name_length`). -/
def declaredNameLength (stream : List Nat) : Nat := stream.getD 3 0

/-- The 15 UTF-16 code units stored in the 30-byte `file_name` field of a
FileName record (bytes 2-31), little-endian. -/
def nameRecordUnits (rec : List Nat) : List Nat :=
  (List.range 15).map (fun i => readLE rec (2 + 2 * i) 2)

/-- A reconstructed file entry set: the primary record, its stream
record, its name records, the decoded name (UTF-16 code units), and the
checksum-mismatch corruption flag. -/
structure FileEntrySet where
  primary : List Nat
  stream : List Nat
  nameRecords : List (List Nat)
  name : List Nat
  corrupt : Bool
  deriving DecidableEq, Repr

/-- Collect `n` records that must all classify as FileName; ending early
is `TruncatedSet`, a record of another kind is
`SecondaryCountMismatch`. -/
def collectNames : Nat → List (List Nat) → Except FsError (List (List Nat) × List (List Nat))
  | 0, rest => .ok ([], rest)
  | _ + 1, [] => .error .TruncatedSet
  | n + 1, r :: rest =>
    if classifyBasic r = EntryType.FileName then
      match collectNames n rest with
      | .ok (names, rem) => .ok (r :: names, rem)
      | .error e => .error e
    else
      .error .SecondaryCountMismatch

/-- Whether the declared name length is consistent with `n` name
records: with no name record the length must be 0, and otherwise only
trailing padding of the last 15-unit fragment may be unused, so the
length is in `15*(n-1) + 1 .. 15*n`. -/
def nameLengthConsistent (n len : Nat) : Bool :=
  if n = 0 then len = 0 else 15 * (n - 1) < len && len ≤ 15 * n

/-- Modelled from the spec: the file-entry-set reconstruction code is
not under src/ (the header documents the entry-set structure at
tsk_exfatfs.h lines 166-225).  `build` consumes a File record, the
immediately following FileStream record, and the declared
`secondary_entries_count - 1` FileName records; it fails with
`TruncatedSet` when the sequence ends first, `SecondaryCountMismatch`
when a record of another kind appears before the count is exhausted,
and `NameLengthMismatch` when the declared name length disagrees with
the name records beyond trailing padding.  A checksum mismatch never
fails: the set is returned with its corruption flag set. -/
def build (seq : List (List Nat)) : Except FsError FileEntrySet :=
  match seq with
  | [] => .error .TruncatedSet
  | primary :: rest =>
    if classifyBasic primary ≠ EntryType.File then .error .NotPrimaryRecord
    else
      let count := declaredSecondaryCount primary
      match rest with
      | [] => if 1 ≤ count then .error .TruncatedSet else .error .InvalidSecondaryCount
      | stream :: rest2 =>
        if classifyBasic stream ≠ EntryType.FileStream then .error .MissingStreamRecord
        else
          match collectNames (count - 1) rest2 with
          | .error e => .error e
          | .ok (names, _) =>
            if count < 1 ∨ 18 < count then .error .InvalidSecondaryCount
            else
              let len := declaredNameLength stream
              if nameLengthConsistent names.length len then
                .ok { primary := primary
                      stream := stream
                      nameRecords := names
                      name := ((names.map nameRecordUnits).flatten).take len
                      corrupt := entrySetChecksum primary (stream :: names) != storedChecksum primary }
              else
                .error .NameLengthMismatch

/-- Number of UTF-16 code units of fragment `i` that are in use when the
declared name length is `len`: fragments hold 15 units each, filled in
order. -/
def fragmentUnitsUsed (len i : Nat) : Nat := min 15 (len - 15 * i)

/-! ## TexFAT active-bitmap selection -/

/-- A TexFAT volume's two allocation bitmaps. -/
structure TexFatBitmaps (α : Type) where
  first : α
  second : α

/-- The `flags` byte of an `EXFATFS_ALLOC_BITMAP_DIR_ENTRY`, at byte
offset 1 of the 32-byte record. -/
def allocBitmapFlags (rec : List Nat) : Nat :=
  rec.getD (offsetOf EXFATFS_ALLOC_BITMAP_DIR_ENTRY_layout "flags") 0

/-- Modelled from the spec and the header comment at tsk_exfatfs.h lines
111-118: bit zero of the AllocBitmap entry's flags byte selects the
active bitmap, 0 for the first and 1 for the second. -/
def activeBitmap {α : Type} (bm : TexFatBitmaps α) (rec : List Nat) : α :=
  if (allocBitmapFlags rec).testBit 0 then bm.second else bm.first

/-! ## Concrete sample records used to exercise the operations -/

/-- A File record declaring two secondary entries, stored checksum 0. -/
def demoPrimary : List Nat := [0x85, 2, 0, 0] ++ List.replicate 28 0

/-- A File record declaring three secondary entries, stored checksum 0. -/
def demoPrimary3 : List Nat := [0x85, 3, 0, 0] ++ List.replicate 28 0

/-- A FileStream record declaring a 3-unit name. -/
def demoStream : List Nat := [0xC0, 0, 0, 3] ++ List.replicate 28 0

/-- A FileName record holding the UTF-16 units of "abc". -/
def demoName : List Nat := [0xC1, 0, 97, 0, 98, 0, 99, 0] ++ List.replicate 24 0

/-- The entry set reconstructed from the three sample records: the
computed checksum (18498) differs from the stored checksum (0), so the
set is flagged corrupt, but the name "abc" is present. -/
def demoFileEntrySet : FileEntrySet :=
  { primary := demoPrimary
    stream := demoStream
    nameRecords := [demoName]
    name := [97, 98, 99]
    corrupt := true }

/-- A boot sector whose only non-zero bytes are the sector-size exponent
(9) and the 0x55 0xAA signature. -/
def goodSector : List Nat :=
  (((List.replicate 512 0).set 108 9).set 510 0x55).set 511 0xAA

/-! ## Helper lemmas -/

/-- Inversion for a successful `collectNames`: exactly `n` records were
taken, they are a prefix of the input, and all classify as FileName. -/
theorem collectNames_ok (n : Nat) (rest names rem : List (List Nat))
    (h : collectNames n rest = .ok (names, rem)) :
    names.length = n ∧ rest = names ++ rem ∧
      ∀ q ∈ names, classifyBasic q = EntryType.FileName := by
  induction n generalizing rest names rem with
  | zero =>
    simp only [collectNames, Except.ok.injEq, Prod.mk.injEq] at h
    obtain ⟨h1, h2⟩ := h
    subst h1; subst h2
    simp
  | succ n ih =>
    match rest with
    | [] => simp [collectNames] at h
    | r :: rest2 =>
      simp only [collectNames] at h
      split at h
      · split at h
        next names2 rem2 heq =>
          simp only [Except.ok.injEq, Prod.mk.injEq] at h
          obtain ⟨h1, h2⟩ := h
          subst h1; subst h2
          obtain ⟨hlen, happ, hall⟩ := ih rest2 names2 rem2 heq
          refine ⟨by simp [hlen], by simp [happ], ?_⟩
          intro q hq
          rcases List.mem_cons.mp hq with hq | hq
          · subst hq; assumption
          · exact hall q hq
        next heq => simp at h
      · simp at h

/-- `collectNames` on a list of FileName records that is too short fails
with `TruncatedSet`. -/
theorem collectNames_truncated (names : List (List Nat))
    (hall : ∀ q ∈ names, classifyBasic q = EntryType.FileName) :
    ∀ n, names.length < n → collectNames n names = .error .TruncatedSet := by
  induction names with
  | nil =>
    intro n hn
    match n, hn with
    | m + 1, _ => simp [collectNames]
  | cons r rest ih =>
    intro n hn
    match n, hn with
    | m + 1, hn =>
      have hr : classifyBasic r = EntryType.FileName := hall r (by simp)
      have hrest : ∀ q ∈ rest, classifyBasic q = EntryType.FileName :=
        fun q hq => hall q (by simp [hq])
      have hm : rest.length < m := by simpa using hn
      simp [collectNames, hr, ih hrest m hm]

/-- `collectNames` hitting a record of another kind before the count is
exhausted fails with `SecondaryCountMismatch`. -/
theorem collectNames_mismatch (pre : List (List Nat)) (bad : List Nat)
    (post : List (List Nat))
    (hpre : ∀ q ∈ pre, classifyBasic q = EntryType.FileName)
    (hbad : classifyBasic bad ≠ EntryType.FileName) :
    ∀ n, pre.length < n →
      collectNames n (pre ++ bad :: post) = .error .SecondaryCountMismatch := by
  induction pre with
  | nil =>
    intro n hn
    match n, hn with
    | m + 1, _ => simp [collectNames, hbad]
  | cons r rest ih =>
    intro n hn
    match n, hn with
    | m + 1, hn =>
      have hr : classifyBasic r = EntryType.FileName := hpre r (by simp)
      have hrest : ∀ q ∈ rest, classifyBasic q = EntryType.FileName :=
        fun q hq => hpre q (by simp [hq])
      have hm : rest.length < m := by simpa using hn
      simp [collectNames, hr, ih hrest m hm]

/-- Inversion for a successful `build`: the consumed prefix is the
primary record, the stream record and the name records in order, with
the declared count satisfied, the name-length check passed, and the
name and corruption flag computed from the records. -/
theorem build_ok_inversion (seq : List (List Nat)) (r : FileEntrySet)
    (h : build seq = .ok r) :
    ∃ rest, seq = r.primary :: r.stream :: (r.nameRecords ++ rest) ∧
      classifyBasic r.primary = EntryType.File ∧
      classifyBasic r.stream = EntryType.FileStream ∧
      (∀ q ∈ r.nameRecords, classifyBasic q = EntryType.FileName) ∧
      r.nameRecords.length + 1 = declaredSecondaryCount r.primary ∧
      r.nameRecords.length ≤ 17 ∧
      nameLengthConsistent r.nameRecords.length (declaredNameLength r.stream) = true ∧
      r.name = ((r.nameRecords.map nameRecordUnits).flatten).take
        (declaredNameLength r.stream) ∧
      r.corrupt = (entrySetChecksum r.primary (r.stream :: r.nameRecords)
        != storedChecksum r.primary) := by
  cases seq with
  | nil => simp [build] at h
  | cons primary rest =>
    cases rest with
    | nil =>
      simp only [build] at h
      split at h
      · exact Except.noConfusion h
      · split at h <;> exact Except.noConfusion h
    | cons stream rest2 =>
      simp only [build] at h
      split at h
      · exact Except.noConfusion h
      next hFile =>
        rw [not_not] at hFile
        split at h
        · exact Except.noConfusion h
        next hStream =>
          rw [not_not] at hStream
          split at h
          next e heq => exact Except.noConfusion h
          next names rem heq =>
            split at h
            · exact Except.noConfusion h
            next hcount =>
              push_neg at hcount
              split at h
              next hlen =>
                simp only [Except.ok.injEq] at h
                obtain ⟨hn, happ, hall⟩ := collectNames_ok _ _ _ _ heq
                subst h
                refine ⟨rem, ?_, hFile, hStream, hall, ?_, ?_, hlen, rfl, rfl⟩
                · simp [happ]
                · simp only [hn]; omega
                · simp only [hn]; omega
              next hlen => exact Except.noConfusion h

/-! ## Claim theorems -/

/-- C2: for every 32-byte record, Basic-mode classification returns
`File` when the first byte is 0x85, `FileDeleted` when it is 0x05,
`FileStream` when it is 0xC0, `FileName` when it is 0xC1, and `Unknown`
for any first byte not in the known type-code set; classification is a
total function and never fails. -/
theorem exfat_classify_basic_type_codes (b : Nat) :
    classifyBasicByte 0x85 = EntryType.File ∧
    classifyBasicByte 0x05 = EntryType.FileDeleted ∧
    classifyBasicByte 0xC0 = EntryType.FileStream ∧
    classifyBasicByte 0xC1 = EntryType.FileName ∧
    (b ∉ knownTypeCodes → classifyBasicByte b = EntryType.Unknown) := by
  refine ⟨by decide, by decide, by decide, by decide, fun h => ?_⟩
  simp only [knownTypeCodes, List.mem_cons, List.not_mem_nil, or_false,
    not_or] at h
  obtain ⟨h1, h2, h3, h4, h5, h6, h7, h8, h9, h10, h11⟩ := h
  simp [classifyBasicByte, h1, h2, h3, h4, h5, h6, h7, h8, h9, h10, h11]

/-- Witness for C2: first byte 0x07 is not a known type code and
classifies as `Unknown`. -/
theorem exfat_classify_basic_type_codes_witness :
    classifyBasicByte 7 = EntryType.Unknown :=
  (exfat_classify_basic_type_codes 7).2.2.2.2 (by decide)

/-- C3: a cluster index below 2 or above `clusterCount + 1` is rejected
with `ClusterOutOfRange`; an in-range index returns bit
`clusterIndex - 2` of the active allocation bitmap, so cluster index 2
reflects bit 0. -/
theorem exfat_cluster_alloc_range (o : AllocOracle) (c : Nat) :
    (c < 2 ∨ c > o.clusterCount + 1 →
      isAllocated o c = .error .ClusterOutOfRange) ∧
    (2 ≤ c → c ≤ o.clusterCount + 1 →
      isAllocated o c = .ok (bitmapBit o.bitmapBytes (c - 2))) ∧
    (1 ≤ o.clusterCount →
      isAllocated o 2 = .ok (bitmapBit o.bitmapBytes 0)) := by
  refine ⟨fun h => ?_, fun h1 h2 => ?_, fun h => ?_⟩
  · simp only [isAllocated]
    rw [if_pos h]
  · simp only [isAllocated]
    rw [if_neg (by omega)]
  · simp only [isAllocated]
    rw [if_neg (by omega)]

/-- Witness for C3: with cluster count 4 and bitmap byte 1, cluster
index 6 = clusterCount + 2 is out of range and cluster index 2 returns
bit 0 of the bitmap (which is set). -/
theorem exfat_cluster_alloc_range_witness :
    isAllocated ⟨4, [1]⟩ 6 = .error .ClusterOutOfRange ∧
    isAllocated ⟨4, [1]⟩ 2 = .ok true :=
  ⟨(exfat_cluster_alloc_range ⟨4, [1]⟩ 6).1 (by decide),
   (exfat_cluster_alloc_range ⟨4, [1]⟩ 2).2.2 (by decide)⟩

/-- C4: `parse` fails with `InvalidBootSector` exactly when the fixed
two-byte signature is absent, the 53-byte must-be-zeros region is
non-zero, the sector-size exponent is outside 9..12, or the cluster
size exceeds the format's maximum; otherwise it returns the geometry
decoded from the sector. -/
theorem exfat_boot_sector_parse (s : List Nat) :
    (parse s = .error .InvalidBootSector ↔
      ¬(signatureOk s = true ∧ mustBeZerosOk s = true ∧
        sectorSizeOk s = true ∧ clusterSizeOk s = true)) ∧
    (signatureOk s = true → mustBeZerosOk s = true → sectorSizeOk s = true →
      clusterSizeOk s = true → parse s = .ok (decodeGeometry s)) := by
  have hiff : (signatureOk s && mustBeZerosOk s && sectorSizeOk s &&
      clusterSizeOk s) = true ↔
      (signatureOk s = true ∧ mustBeZerosOk s = true ∧
        sectorSizeOk s = true ∧ clusterSizeOk s = true) := by
    simp [Bool.and_eq_true, and_assoc]
  by_cases hb : (signatureOk s && mustBeZerosOk s && sectorSizeOk s &&
      clusterSizeOk s) = true
  · constructor
    · simp only [parse]
      rw [if_pos hb]
      simp [hiff.mp hb]
    · intro _ _ _ _
      simp only [parse]
      rw [if_pos hb]
  · have hneg : ¬(signatureOk s = true ∧ mustBeZerosOk s = true ∧
        sectorSizeOk s = true ∧ clusterSizeOk s = true) :=
      fun hc => hb (hiff.mpr hc)
    constructor
    · simp only [parse]
      rw [if_neg hb]
      simp [hneg]
    · intro h1 h2 h3 h4
      exact absurd (hiff.mpr ⟨h1, h2, h3, h4⟩) hb

/-- Witness for C4: the sample sector with valid signature, zeroed
reserved region and sector-size exponent 9 parses successfully. -/
theorem exfat_boot_sector_parse_witness :
    parse goodSector = .ok (decodeGeometry goodSector) :=
  (exfat_boot_sector_parse goodSector).2 (by decide) (by decide) (by decide)
    (by decide)

/-- C7: the boot-sector layout has the specified fields in the specified
order with the specified byte widths and little-endian offsets: the
fixed jump/name/reserved prefix, then the 8-byte partition offset, the
8-byte volume length in sectors, the 4-byte FAT offset and length, the
4-byte cluster-heap offset, cluster count, root-directory cluster and
volume serial, the 2-byte revision and volume flags, the five 1-byte
fields, the reserved padding, the boot-code region and the final 2-byte
signature, totalling 512 bytes, which is at least 512. -/
theorem exfat_boot_sector_layout :
    layoutSize EXFATFS_BOOT_SECTOR_layout = 512 ∧
    512 ≤ layoutSize EXFATFS_BOOT_SECTOR_layout ∧
    offsetOf EXFATFS_BOOT_SECTOR_layout "jump_to_boot_code" = 0 ∧
    offsetOf EXFATFS_BOOT_SECTOR_layout "fs_name" = 3 ∧
    offsetOf EXFATFS_BOOT_SECTOR_layout "must_be_zeros" = 11 ∧
    widthOf EXFATFS_BOOT_SECTOR_layout "must_be_zeros" = 53 ∧
    offsetOf EXFATFS_BOOT_SECTOR_layout "partition_offset" = 64 ∧
    widthOf EXFATFS_BOOT_SECTOR_layout "partition_offset" = 8 ∧
    offsetOf EXFATFS_BOOT_SECTOR_layout "vol_len_in_sectors" = 72 ∧
    widthOf EXFATFS_BOOT_SECTOR_layout "vol_len_in_sectors" = 8 ∧
    offsetOf EXFATFS_BOOT_SECTOR_layout "fat_offset" = 80 ∧
    widthOf EXFATFS_BOOT_SECTOR_layout "fat_offset" = 4 ∧
    offsetOf EXFATFS_BOOT_SECTOR_layout "fat_len_in_sectors" = 84 ∧
    widthOf EXFATFS_BOOT_SECTOR_layout "fat_len_in_sectors" = 4 ∧
    offsetOf EXFATFS_BOOT_SECTOR_layout "cluster_heap_offset" = 88 ∧
    widthOf EXFATFS_BOOT_SECTOR_layout "cluster_heap_offset" = 4 ∧
    offsetOf EXFATFS_BOOT_SECTOR_layout "cluster_cnt" = 92 ∧
    widthOf EXFATFS_BOOT_SECTOR_layout "cluster_cnt" = 4 ∧
    offsetOf EXFATFS_BOOT_SECTOR_layout "root_dir_cluster" = 96 ∧
    widthOf EXFATFS_BOOT_SECTOR_layout "root_dir_cluster" = 4 ∧
    offsetOf EXFATFS_BOOT_SECTOR_layout "vol_serial_no" = 100 ∧
    widthOf EXFATFS_BOOT_SECTOR_layout "vol_serial_no" = 4 ∧
    offsetOf EXFATFS_BOOT_SECTOR_layout "fs_revision" = 104 ∧
    widthOf EXFATFS_BOOT_SECTOR_layout "fs_revision" = 2 ∧
    offsetOf EXFATFS_BOOT_SECTOR_layout "vol_flags" = 106 ∧
    widthOf EXFATFS_BOOT_SECTOR_layout "vol_flags" = 2 ∧
    offsetOf EXFATFS_BOOT_SECTOR_layout "bytes_per_sector" = 108 ∧
    widthOf EXFATFS_BOOT_SECTOR_layout "bytes_per_sector" = 1 ∧
    offsetOf EXFATFS_BOOT_SECTOR_layout "sectors_per_cluster" = 109 ∧
    widthOf EXFATFS_BOOT_SECTOR_layout "sectors_per_cluster" = 1 ∧
    offsetOf EXFATFS_BOOT_SECTOR_layout "num_fats" = 110 ∧
    widthOf EXFATFS_BOOT_SECTOR_layout "num_fats" = 1 ∧
    offsetOf EXFATFS_BOOT_SECTOR_layout "drive_select" = 111 ∧
    widthOf EXFATFS_BOOT_SECTOR_layout "drive_select" = 1 ∧
    offsetOf EXFATFS_BOOT_SECTOR_layout "percent_of_cluster_heap_in_use" = 112 ∧
    widthOf EXFATFS_BOOT_SECTOR_layout "percent_of_cluster_heap_in_use" = 1 ∧
    offsetOf EXFATFS_BOOT_SECTOR_layout "reserved" = 113 ∧
    offsetOf EXFATFS_BOOT_SECTOR_layout "boot_code" = 120 ∧
    offsetOf EXFATFS_BOOT_SECTOR_layout "signature" = 510 ∧
    widthOf EXFATFS_BOOT_SECTOR_layout "signature" = 2 := by
  decide

/-- C8: every directory-entry type occupies exactly 32 bytes, with the
1-byte type code as its first field followed by 31 bytes of fixed
per-type payload. -/
theorem exfat_dir_entry_sizes :
    layoutSize EXFATFS_VOL_LABEL_DIR_ENTRY_layout = 32 ∧
    EXFATFS_VOL_LABEL_DIR_ENTRY_layout.head? = some ("entry_type", 1) ∧
    layoutSize EXFATFS_VOL_GUID_DIR_ENTRY_layout = 32 ∧
    EXFATFS_VOL_GUID_DIR_ENTRY_layout.head? = some ("entry_type", 1) ∧
    layoutSize EXFATFS_ALLOC_BITMAP_DIR_ENTRY_layout = 32 ∧
    EXFATFS_ALLOC_BITMAP_DIR_ENTRY_layout.head? = some ("entry_type", 1) ∧
    layoutSize EXFATFS_UPCASE_TABLE_DIR_ENTRY_layout = 32 ∧
    EXFATFS_UPCASE_TABLE_DIR_ENTRY_layout.head? = some ("entry_type", 1) ∧
    layoutSize EXFATFS_TEXFAT_DIR_ENTRY_layout = 32 ∧
    EXFATFS_TEXFAT_DIR_ENTRY_layout.head? = some ("entry_type", 1) ∧
    layoutSize EXFATFS_ACCESS_CTRL_TABLE_DIR_ENTRY_layout = 32 ∧
    EXFATFS_ACCESS_CTRL_TABLE_DIR_ENTRY_layout.head? = some ("entry_type", 1) ∧
    layoutSize EXFATFS_FILE_DIR_ENTRY_layout = 32 ∧
    EXFATFS_FILE_DIR_ENTRY_layout.head? = some ("entry_type", 1) ∧
    layoutSize EXFATFS_FILE_STREAM_DIR_ENTRY_layout = 32 ∧
    EXFATFS_FILE_STREAM_DIR_ENTRY_layout.head? = some ("entry_type", 1) ∧
    layoutSize EXFATFS_FILE_NAME_DIR_ENTRY_layout = 32 ∧
    EXFATFS_FILE_NAME_DIR_ENTRY_layout.head? = some ("entry_type", 1) := by
  decide

/-- C9: bit 0x80 of the type code marks the in-use state independently
of the entry's kind: File (0x85) and FileDeleted (0x05) differ only in
that bit, as do VolumeLabel (0x83) and VolumeLabelEmpty (0x03); the bit
is set in every in-use type code and clear in the deleted/empty
codes. -/
theorem exfat_in_use_bit :
    EXFATFS_DIR_ENTRY_TYPE_FILE ^^^ EXFATFS_DIR_ENTRY_TYPE_FILE_DELETED = 0x80 ∧
    EXFATFS_DIR_ENTRY_TYPE_VOLUME_LABEL ^^^
      EXFATFS_DIR_ENTRY_TYPE_VOLUME_LABEL_EMPTY = 0x80 ∧
    inUseBit EXFATFS_DIR_ENTRY_TYPE_FILE = true ∧
    inUseBit EXFATFS_DIR_ENTRY_TYPE_FILE_DELETED = false ∧
    inUseBit EXFATFS_DIR_ENTRY_TYPE_VOLUME_LABEL = true ∧
    inUseBit EXFATFS_DIR_ENTRY_TYPE_VOLUME_LABEL_EMPTY = false ∧
    inUseBit EXFATFS_DIR_ENTRY_TYPE_VOLUME_GUID = true ∧
    inUseBit EXFATFS_DIR_ENTRY_TYPE_ALLOC_BITMAP = true ∧
    inUseBit EXFATFS_DIR_ENTRY_TYPE_UPCASE_TABLE = true ∧
    inUseBit EXFATFS_DIR_ENTRY_TYPE_TEX_FAT = true ∧
    inUseBit EXFATFS_DIR_ENTRY_TYPE_ACL = true ∧
    inUseBit EXFATFS_DIR_ENTRY_TYPE_FILE_STREAM = true ∧
    inUseBit EXFATFS_DIR_ENTRY_TYPE_FILE_NAME = true := by
  decide

/-- C10: the two allocation bitmaps of a TexFAT volume are selected by
bit 0 of the AllocBitmap entry's flags byte (at byte offset 1 of the
record): bit value 0 selects the first bitmap and bit value 1 selects
the second. -/
theorem exfat_texfat_bitmap_selection {α : Type} (bm : TexFatBitmaps α)
    (rec : List Nat) :
    offsetOf EXFATFS_ALLOC_BITMAP_DIR_ENTRY_layout "flags" = 1 ∧
    ((allocBitmapFlags rec).testBit 0 = false →
      activeBitmap bm rec = bm.first) ∧
    ((allocBitmapFlags rec).testBit 0 = true →
      activeBitmap bm rec = bm.second) := by
  refine ⟨by decide, fun h => ?_, fun h => ?_⟩ <;> simp [activeBitmap, h]

/-- C1: every file entry set accepted by `build` consists of exactly one
File (primary) record, exactly one FileStream record immediately
following it, and between 0 and 17 FileName records following that,
contiguous and in order, with the number of secondary records equal to
the primary record's declared secondary-entry count, and every FileName
fragment holding at most 15 UTF-16 code units with all fragments before
the last holding exactly 15. -/
theorem exfat_file_entry_set_structure (seq : List (List Nat))
    (r : FileEntrySet) (h : build seq = .ok r) :
    ∃ rest, seq = r.primary :: r.stream :: (r.nameRecords ++ rest) ∧
      classifyBasic r.primary = EntryType.File ∧
      classifyBasic r.stream = EntryType.FileStream ∧
      (∀ q ∈ r.nameRecords, classifyBasic q = EntryType.FileName) ∧
      r.nameRecords.length + 1 = declaredSecondaryCount r.primary ∧
      r.nameRecords.length ≤ 17 ∧
      (∀ i, i + 1 < r.nameRecords.length →
        fragmentUnitsUsed (declaredNameLength r.stream) i = 15) ∧
      (∀ i, fragmentUnitsUsed (declaredNameLength r.stream) i ≤ 15) := by
  obtain ⟨rest, hseq, hF, hS, hall, hcount, hle, hlen, _, _⟩ :=
    build_ok_inversion seq r h
  refine ⟨rest, hseq, hF, hS, hall, hcount, hle, ?_, ?_⟩
  · intro i hi
    have hn0 : ¬(r.nameRecords.length = 0) := by omega
    rw [nameLengthConsistent, if_neg hn0] at hlen
    simp only [Bool.and_eq_true, decide_eq_true_eq] at hlen
    obtain ⟨hlo, hhi⟩ := hlen
    simp only [fragmentUnitsUsed]
    omega
  · intro i
    exact Nat.min_le_left _ _

/-- Witness for C1: the sample three-record sequence is accepted and its
secondary-record count matches the declared count of 2, within the
0..17 name-record bound. -/
theorem exfat_file_entry_set_structure_witness :
    demoFileEntrySet.nameRecords.length + 1 =
      declaredSecondaryCount demoFileEntrySet.primary ∧
    demoFileEntrySet.nameRecords.length ≤ 17 := by
  obtain ⟨rest, _, _, _, _, h5, h6, _, _⟩ :=
    exfat_file_entry_set_structure [demoPrimary, demoStream, demoName]
      demoFileEntrySet (by rfl)
  exact ⟨h5, h6⟩

/-- C5: `build` computes the 16-bit rotate-and-add checksum over every
byte of the entry set except the two-byte stored checksum field; a
mismatch with the stored value does not fail or discard the set: it is
returned with the corruption flag set exactly when the values differ,
and the name is present in the result either way. -/
theorem exfat_checksum_mismatch_flagged (seq : List (List Nat))
    (r : FileEntrySet) (h : build seq = .ok r) :
    (r.corrupt = true ↔
      entrySetChecksum r.primary (r.stream :: r.nameRecords) ≠
        storedChecksum r.primary) ∧
    r.name = ((r.nameRecords.map nameRecordUnits).flatten).take
      (declaredNameLength r.stream) ∧
    entrySetChecksum r.primary (r.stream :: r.nameRecords) =
      checksumBytes 0 ((r.primary.take 2 ++ r.primary.drop 4) ++
        (r.stream :: r.nameRecords).flatten) := by
  obtain ⟨rest, _, _, _, _, _, _, _, hname, hflag⟩ :=
    build_ok_inversion seq r h
  refine ⟨?_, hname, ?_⟩
  · rw [hflag]
    exact bne_iff_ne
  · simp [entrySetChecksum, checksumBytes, primaryChecksumBytes,
      List.foldl_append]

/-- Witness for C5: the sample set stores checksum 0 while the computed
checksum is 18498, and `build` still returns it, flagged corrupt, with
the name "abc" present. -/
theorem exfat_checksum_mismatch_flagged_witness :
    demoFileEntrySet.corrupt = true ∧ demoFileEntrySet.name = [97, 98, 99] := by
  obtain ⟨hiff, hname, _⟩ := exfat_checksum_mismatch_flagged
    [demoPrimary, demoStream, demoName] demoFileEntrySet (by rfl)
  exact ⟨hiff.mpr (by decide), rfl⟩

/-- C6: when the primary File record declares a secondary-entry count,
`build` fails with `TruncatedSet` when the sequence ends before that
count of secondary records is supplied, and with
`SecondaryCountMismatch` when a record that does not classify as
FileName appears before the count is exhausted, after the initial
FileStream record. -/
theorem exfat_truncation_and_mismatch (primary : List Nat)
    (hFile : classifyBasic primary = EntryType.File) :
    (1 ≤ declaredSecondaryCount primary →
      build [primary] = .error .TruncatedSet) ∧
    (∀ stream names, classifyBasic stream = EntryType.FileStream →
      (∀ q ∈ names, classifyBasic q = EntryType.FileName) →
      names.length + 1 < declaredSecondaryCount primary →
      build (primary :: stream :: names) = .error .TruncatedSet) ∧
    (∀ stream pre bad post, classifyBasic stream = EntryType.FileStream →
      (∀ q ∈ pre, classifyBasic q = EntryType.FileName) →
      classifyBasic bad ≠ EntryType.FileName →
      pre.length + 2 ≤ declaredSecondaryCount primary →
      build (primary :: stream :: (pre ++ bad :: post)) =
        .error .SecondaryCountMismatch) := by
  refine ⟨fun h1 => ?_, fun stream names hS hall hlt => ?_,
    fun stream pre bad post hS hpre hbad hlt => ?_⟩
  · simp [build, hFile, h1]
  · have hlen : names.length < declaredSecondaryCount primary - 1 := by omega
    simp [build, hFile, hS, collectNames_truncated names hall _ hlen]
  · have hlen : pre.length < declaredSecondaryCount primary - 1 := by omega
    simp [build, hFile, hS,
      collectNames_mismatch pre bad post hpre hbad _ hlen]

/-- Witness for C6: a primary record declaring three secondary entries
followed by a stream record and only one name record yields
`TruncatedSet`. -/
theorem exfat_truncation_and_mismatch_witness :
    build [demoPrimary3, demoStream, demoName] = .error .TruncatedSet :=
  (exfat_truncation_and_mismatch demoPrimary3 (by decide)).2.1 demoStream
    [demoName] (by decide) (by decide) (by decide)

/-- Witness for C10: on an AllocBitmap record with flags byte 0 the
first bitmap is active, and with flags byte 1 the second is. -/
theorem exfat_texfat_bitmap_selection_witness :
    activeBitmap (⟨10, 20⟩ : TexFatBitmaps Nat) [0x81, 0] = 10 ∧
    activeBitmap (⟨10, 20⟩ : TexFatBitmaps Nat) [0x81, 1] = 20 :=
  ⟨(exfat_texfat_bitmap_selection ⟨10, 20⟩ [0x81, 0]).2.1 (by decide),
   (exfat_texfat_bitmap_selection ⟨10, 20⟩ [0x81, 1]).2.2 (by decide)⟩

end ExFat
